import Mathlib

/-!
Shallow embedding of the decision core of `src/app.py` (a pump-motor
condition-monitoring expert system) and proofs about it.

Modelling conventions:
* Python floats are modelled as `ℚ`; every comparison settled below has a wide
  margin to the nearest threshold, so exact rational arithmetic agrees with
  IEEE-754 evaluation on the concrete inputs used.
* Python `int(x)` (truncation toward zero) is `truncQ`.
* Python `None` becomes `Option.none`; the truthiness test `if x:` on an
  optional number becomes "is `some v` with `v ≠ 0`".
* The closed string vocabularies of the source (diagnosis labels, fault types,
  observation categories) become inductive types; each constructor is named
  after the exact source string (documented at its declaration).
* Measurement-point identifiers in the source are the 12 strings
  "Pump|Motor DE|NDE Horizontal|Vertical|Axial"; the source only ever tests
  `"Axial" in point` and `"Vertical" in point`, which on these 12 strings is
  equivalent to testing the direction component, so points are embedded by
  their `Direction`.
-/

namespace PumpDiag

/-- Python `int()` applied to a rational: truncation toward zero. -/
def truncQ (q : ℚ) : ℤ := if 0 ≤ q then ⌊q⌋ else ⌈q⌉

/-- Severity labels "Low" / "Medium" / "High" of the source. -/
inductive Severity
  | Low
  | Medium
  | High
deriving DecidableEq

/-- Numeric rank of a severity, for stating the order Low < Medium < High. -/
def sevRank : Severity → ℕ
  | .Low => 0
  | .Medium => 1
  | .High => 2

/-- The closed vocabulary of per-domain diagnosis strings of the source.
`Normal` is "Normal", `TidakTerdiagnosa` is "Tidak Terdiagnosa"; every other
constructor is spelled exactly like its source string. -/
inductive Diag
  | Normal
  | UNBALANCE
  | MISALIGNMENT
  | LOOSENESS
  | BEARING_EARLY
  | BEARING_DEVELOPED
  | BEARING_SEVERE
  | TidakTerdiagnosa
  | NORMAL_OPERATION
  | CAVITATION
  | IMPELLER_WEAR
  | SYSTEM_RESISTANCE_HIGH
  | EFFICIENCY_DROP
  | UNDER_VOLTAGE
  | OVER_VOLTAGE
  | VOLTAGE_UNBALANCE
  | CURRENT_UNBALANCE
  | OVER_LOAD
  | UNDER_LOAD
  | NORMAL_ELECTRICAL
deriving DecidableEq

/-- The `fault_type` tags of the source ("low_freq", "high_freq", "cavitation",
"wear", "system", "efficiency", "normal", "unknown", "voltage", "current",
"load"); the field itself is optional (`None` in Python). -/
inductive FaultType
  | low_freq
  | high_freq
  | cavitation
  | wear
  | system
  | efficiency
  | normal
  | unknown
  | voltage
  | current
  | load
deriving DecidableEq

/-- Integrated (cross-domain) diagnosis labels of
`aggregate_cross_domain_diagnosis`:
`NoCorrelation` is "Tidak Ada Korelasi Antar Domain Terdeteksi",
`CoupledFault` is "Electrical-Mechanical-Hydraulic Coupled Fault",
`CascadingCavitation` is "Cascading Failure: Cavitation Origin",
`InternalLoss` is "Internal Loss Investigation Required". -/
inductive IntDiag
  | NoCorrelation
  | CoupledFault
  | CascadingCavitation
  | InternalLoss
deriving DecidableEq

-- ===========================================================================
-- Threshold catalog (the global constant dictionaries of app.py)
-- ===========================================================================

/-- Source constant `ISO_LIMITS_VELOCITY["Zone B (Acceptable)"]`. -/
def zoneB : ℚ := 4.5
/-- Source constant `ISO_LIMITS_VELOCITY["Zone C (Unacceptable)"]`. -/
def zoneC : ℚ := 7.1
/-- Source constant `ACCEL_BASELINE["Band1 (0.5-1.5kHz)"]`. -/
def baseline1 : ℚ := 0.3
/-- Source constant `ACCEL_BASELINE["Band2 (1.5-5kHz)"]`. -/
def baseline2 : ℚ := 0.2
/-- Source constant `ACCEL_BASELINE["Band3 (5-16kHz)"]`. -/
def baseline3 : ℚ := 0.15
/-- Source constant `BEARING_TEMP_LIMITS["normal_max"]`. -/
def normal_max : ℤ := 70
/-- Source constant `BEARING_TEMP_LIMITS["elevated_min"]`. -/
def elevated_min : ℤ := 70
/-- Source constant `BEARING_TEMP_LIMITS["elevated_max"]`. -/
def elevated_max : ℤ := 80
/-- Source constant `BEARING_TEMP_LIMITS["warning_max"]`. -/
def warning_max : ℤ := 90
/-- Source constant `BEARING_TEMP_LIMITS["critical_min"]`. -/
def critical_min : ℤ := 90
/-- Source constant `BEARING_TEMP_LIMITS["delta_threshold"]`. -/
def delta_threshold : ℤ := 15
/-- Source constant `ELECTRICAL_LIMITS["voltage_unbalance_warning"]`. -/
def voltage_unbalance_warning : ℚ := 1.0
/-- Source constant `ELECTRICAL_LIMITS["voltage_unbalance_critical"]`. -/
def voltage_unbalance_critical : ℚ := 2.0
/-- Source constant `ELECTRICAL_LIMITS["current_unbalance_warning"]`. -/
def current_unbalance_warning : ℚ := 5.0
/-- Source constant `ELECTRICAL_LIMITS["current_unbalance_critical"]`. -/
def current_unbalance_critical : ℚ := 8.0
/-- Source constant `ELECTRICAL_LIMITS["voltage_tolerance_low"]`. -/
def voltage_tolerance_low : ℚ := 90
/-- Source constant `ELECTRICAL_LIMITS["voltage_tolerance_high"]`. -/
def voltage_tolerance_high : ℚ := 110
/-- Source constant `ELECTRICAL_LIMITS["current_load_critical"]`. -/
def current_load_critical : ℚ := 100

-- ===========================================================================
-- Temperature analysis (get_temperature_status,
-- calculate_temperature_confidence_adjustment)
-- ===========================================================================

/-- Temperature zone labels returned (as first component) by
`get_temperature_status`. -/
inductive TempStatus
  | Normal
  | Elevated
  | Warning
  | Critical
deriving DecidableEq

/-- Function `get_temperature_status` of app.py (zone component only; the emoji and the
numeric severity level it also returns are presentation data unused by the
decision logic embedded here). Bearing temperatures are integers everywhere in
the application (integer °C inputs). -/
def get_temperature_status (t : ℤ) : TempStatus :=
  if t < normal_max then .Normal
  else if t < elevated_max then .Elevated
  else if t < warning_max then .Warning
  else .Critical

/-- The bearing-temperature dictionary `temp_data` with its four fixed keys
"Pump_DE", "Pump_NDE", "Motor_DE", "Motor_NDE" (values optional). -/
structure TempMap where
  pumpDE : Option ℤ
  pumpNDE : Option ℤ
  motorDE : Option ℤ
  motorNDE : Option ℤ
deriving DecidableEq

/-- Python truthiness of `temp_dict.get(key)`: present and non-zero (a missing
key reads as `None`, and `getD 0` makes the absent case fail the second
conjunct as well). -/
def present (t : Option ℤ) : Prop :=
  t ≠ none ∧ t.getD 0 ≠ 0

instance (t : Option ℤ) : Decidable (present t) := by
  unfold present
  infer_instance

/-- Body of the per-reading loop of `calculate_temperature_confidence_adjustment`
(the increment contributed by one reading): readings that are `None` or `0` are
skipped (`continue`), the rest dispatch on the status if-elif chain. -/
def loopBody (t : Option ℤ) (diagnosis_consistent : Bool) : ℤ :=
  match t with
  | none => 0
  | some v =>
    if v = 0 then 0
    else
      let st := get_temperature_status v
      if st = TempStatus.Critical then (if diagnosis_consistent then 20 else -10)
      else if st = TempStatus.Warning then (if diagnosis_consistent then 15 else -5)
      else if st = TempStatus.Elevated then (if diagnosis_consistent then 10 else 0)
      else 0

/-- The two ΔT checks of `calculate_temperature_confidence_adjustment`: +5 when
both pump (resp. motor) DE/NDE readings are truthy and their absolute
difference exceeds `delta_threshold`. -/
def deltaLocalizationBonus (td : TempMap) : ℤ :=
  (if present td.pumpDE ∧ present td.pumpNDE then
    (if delta_threshold < |td.pumpDE.getD 0 - td.pumpNDE.getD 0| then 5 else 0)
   else 0) +
  (if present td.motorDE ∧ present td.motorNDE then
    (if delta_threshold < |td.motorDE.getD 0 - td.motorNDE.getD 0| then 5 else 0)
   else 0)

/-- Function `calculate_temperature_confidence_adjustment` of app.py (adjustment value;
the accompanying note strings are presentation data, as is the
"Motor DE > Pump DE" check which only appends a note and never changes the
score). The reading loop runs over the four keys of `temp_data`, then the two
ΔT checks add their bonuses, then the total is clamped by
`min(20, max(-10, adjustment))`. -/
def calculate_temperature_confidence_adjustment
    (td : TempMap) (diagnosis_consistent : Bool) : ℤ :=
  min 20 (max (-10)
    (loopBody td.pumpDE diagnosis_consistent + loopBody td.pumpNDE diagnosis_consistent +
     loopBody td.motorDE diagnosis_consistent + loopBody td.motorNDE diagnosis_consistent +
     deltaLocalizationBonus td))

-- ===========================================================================
-- Hydraulic domain (calculate_hydraulic_parameters,
-- classify_hydraulic_performance, diagnose_hydraulic_single_point)
-- ===========================================================================

/-- Result record of `calculate_hydraulic_parameters`. -/
structure HydCalc where
  delta_p_bar : ℚ
  head_m : ℚ
  hydraulic_power_kw : ℚ
  efficiency_percent : ℚ
deriving DecidableEq

/-- Function `calculate_hydraulic_parameters` of app.py (the `fluid_temp_c` parameter of
the source is unused by the computation and omitted). -/
def calculate_hydraulic_parameters
    (suction_pressure discharge_pressure flow_rate motor_power sg : ℚ) : HydCalc :=
  let delta_p := discharge_pressure - suction_pressure
  let head := if 0 < sg then delta_p * 10.2 / sg else 0
  let hydraulic_power :=
    if 0 < flow_rate ∧ 0 < head then flow_rate * head * sg * 9.81 / 3600 else 0
  let efficiency := if 0 < motor_power then hydraulic_power / motor_power * 100 else 0
  { delta_p_bar := delta_p, head_m := head, hydraulic_power_kw := hydraulic_power,
    efficiency_percent := efficiency }

/-- The percentage-deviation formula `((aktual - design) / design * 100)` with
the `design > 0` zero-guard, used for head, efficiency and flow in
`classify_hydraulic_performance`. -/
def dev_pct (aktual design : ℚ) : ℚ :=
  if 0 < design then (aktual - design) / design * 100 else 0

/-- The deviation-pattern labels returned by `classify_hydraulic_performance`. -/
inductive HydPattern
  | UNDER_PERFORMANCE
  | OVER_RESISTANCE
  | EFFICIENCY_DROP
  | NORMAL
  | MIXED_DEVIATION
deriving DecidableEq

/-- The per-branch `deviations` dictionary returned alongside the pattern
(each branch of the source includes only some of the three keys). -/
structure Deviations where
  head_dev : Option ℚ
  eff_dev : Option ℚ
  flow_dev : Option ℚ
deriving DecidableEq

/-- Function `classify_hydraulic_performance` of app.py. -/
def classify_hydraulic_performance
    (head_aktual head_design efficiency_aktual efficiency_bep flow_aktual flow_design : ℚ) :
    HydPattern × Deviations :=
  let dev_head := dev_pct head_aktual head_design
  let dev_eff := dev_pct efficiency_aktual efficiency_bep
  let dev_flow := dev_pct flow_aktual flow_design
  if dev_head < -5 ∧ dev_eff < -5 then
    (.UNDER_PERFORMANCE, { head_dev := some dev_head, eff_dev := some dev_eff, flow_dev := none })
  else if 5 < dev_head ∧ dev_flow < -5 then
    (.OVER_RESISTANCE, { head_dev := some dev_head, eff_dev := none, flow_dev := some dev_flow })
  else if dev_eff < -10 ∧ |dev_head| ≤ 5 then
    (.EFFICIENCY_DROP, { head_dev := none, eff_dev := some dev_eff, flow_dev := none })
  else if |dev_head| ≤ 5 ∧ |dev_eff| ≤ 5 ∧ |dev_flow| ≤ 5 then
    (.NORMAL, { head_dev := some dev_head, eff_dev := some dev_eff, flow_dev := some dev_flow })
  else
    (.MIXED_DEVIATION, { head_dev := some dev_head, eff_dev := some dev_eff, flow_dev := some dev_flow })

/-- NPSHa estimate of `diagnose_hydraulic_single_point`:
`((suction_bar + 1.013) * 100 - vapor_pressure_kpa) / (sg * 9.81)` with the
`sg > 0` zero-guard. -/
def npsh_available (suction_pressure_bar vapor_pressure_kpa sg : ℚ) : ℚ :=
  if 0 < sg then ((suction_pressure_bar + 1.013) * 100 - vapor_pressure_kpa) / (sg * 9.81)
  else 0

/-- The `design_params` dictionary fed to `diagnose_hydraulic_single_point`. -/
structure DesignParams where
  rated_flow_m3h : ℚ
  rated_head_m : ℚ
  bep_efficiency : ℚ
  npsh_required_m : ℚ

/-- The fluid-property fields read by `diagnose_hydraulic_single_point`
(`vapor_pressure_kpa_38C` and `sg`). -/
structure FluidProps where
  vapor_pressure_kpa_38C : ℚ
  sg : ℚ

/-- The `noise_type` observation vocabulary of the UI
("Normal", "Whining", "Grinding", "Crackling"). -/
inductive Noise
  | Normal
  | Whining
  | Grinding
  | Crackling
deriving DecidableEq

/-- The `fluid_condition` observation vocabulary of the UI: `Jernih`,
`AgakKeruh` ("Agak keruh"), `Keruh` ("Keruh/partikel"), `Berbusa`. -/
inductive FluidCond
  | Jernih
  | AgakKeruh
  | Keruh
  | Berbusa
deriving DecidableEq

/-- The `observations` dictionary fed to `diagnose_hydraulic_single_point`
(the `leakage` entry is never read by it). -/
structure Observations where
  noise_type : Noise
  fluid_condition : FluidCond

/-- The `context` dictionary fed to `diagnose_hydraulic_single_point`. -/
structure HydContext where
  flow_aktual : ℚ
  suction_pressure_bar : ℚ

/-- Result record of `diagnose_hydraulic_single_point` (`domain` is the
constant "hydraulic"; `details` holds the deviations dictionary and the NPSH
margin). -/
structure HydResult where
  diagnosis : Diag
  confidence : ℤ
  severity : Severity
  fault_type : Option FaultType
  npsh_margin_m : ℚ
  deviations : Deviations
deriving DecidableEq

/-- Function `diagnose_hydraulic_single_point` of app.py. -/
def diagnose_hydraulic_single_point
    (hydraulic_calc : HydCalc) (design_params : DesignParams) (fluid_props : FluidProps)
    (observations : Observations) (context : HydContext) : HydResult :=
  let pd := classify_hydraulic_performance hydraulic_calc.head_m design_params.rated_head_m
    hydraulic_calc.efficiency_percent design_params.bep_efficiency
    context.flow_aktual design_params.rated_flow_m3h
  let pattern := pd.1
  let deviations := pd.2
  let npsha_estimated := npsh_available context.suction_pressure_bar
    fluid_props.vapor_pressure_kpa_38C fluid_props.sg
  let npsh_margin := npsha_estimated - design_params.npsh_required_m
  if observations.noise_type = Noise.Crackling ∧ npsh_margin < 0.5 then
    { diagnosis := .CAVITATION,
      confidence := min 90 (if npsh_margin < 0.5 then 70 + truncQ ((0.5 - npsh_margin) * 20) else 70),
      severity := if npsh_margin < 0.3 then .High else .Medium,
      fault_type := some .cavitation,
      npsh_margin_m := npsh_margin, deviations := deviations }
  else if pattern = HydPattern.UNDER_PERFORMANCE ∧ observations.noise_type = Noise.Normal ∧
      (observations.fluid_condition = FluidCond.Jernih ∨
       observations.fluid_condition = FluidCond.AgakKeruh) then
    { diagnosis := .IMPELLER_WEAR,
      confidence := min 85 (60 + truncQ (|deviations.head_dev.getD 0| * 2)),
      severity := if deviations.head_dev.getD 0 < -15 then .High else .Medium,
      fault_type := some .wear,
      npsh_margin_m := npsh_margin, deviations := deviations }
  else if pattern = HydPattern.OVER_RESISTANCE then
    { diagnosis := .SYSTEM_RESISTANCE_HIGH, confidence := 75, severity := .Medium,
      fault_type := some .system,
      npsh_margin_m := npsh_margin, deviations := deviations }
  else if pattern = HydPattern.EFFICIENCY_DROP then
    { diagnosis := .EFFICIENCY_DROP,
      confidence := min 80 (65 + truncQ |deviations.eff_dev.getD 0|),
      severity := if deviations.eff_dev.getD 0 < -20 then .High else .Medium,
      fault_type := some .efficiency,
      npsh_margin_m := npsh_margin, deviations := deviations }
  else if pattern = HydPattern.NORMAL then
    { diagnosis := .NORMAL_OPERATION, confidence := 95, severity := .Low,
      fault_type := some .normal,
      npsh_margin_m := npsh_margin, deviations := deviations }
  else
    { diagnosis := .TidakTerdiagnosa, confidence := 40, severity := .Medium,
      fault_type := some .unknown,
      npsh_margin_m := npsh_margin, deviations := deviations }

-- ===========================================================================
-- Electrical domain (calculate_electrical_parameters,
-- diagnose_electrical_condition)
-- ===========================================================================

/-- Result record of `calculate_electrical_parameters`. -/
structure ElecCalc where
  v_avg : ℚ
  i_avg : ℚ
  voltage_unbalance_percent : ℚ
  current_unbalance_percent : ℚ
  load_estimate_percent : ℚ
  voltage_within_tolerance : Bool
deriving DecidableEq

/-- Function `calculate_electrical_parameters` of app.py. The voltage-tolerance check
`(v_avg / rated_voltage * 100)` divides by `rated_voltage` without a zero
guard — in Python a call with `rated_voltage = 0` raises `ZeroDivisionError`
instead of returning, modelled here as `none`. All other divisors (`v_avg`,
`i_avg`, `fla`) carry explicit `> 0` guards that short-circuit to 0. -/
def calculate_electrical_parameters
    (v_l1l2 v_l2l3 v_l3l1 i_l1 i_l2 i_l3 rated_voltage fla : ℚ) : Option ElecCalc :=
  if rated_voltage = 0 then none
  else
    let v_avg := (v_l1l2 + v_l2l3 + v_l3l1) / 3
    let i_avg := (i_l1 + i_l2 + i_l3) / 3
    let voltage_unbalance :=
      if 0 < v_avg then max |v_l1l2 - v_avg| (max |v_l2l3 - v_avg| |v_l3l1 - v_avg|) / v_avg * 100
      else 0
    let current_unbalance :=
      if 0 < i_avg then max |i_l1 - i_avg| (max |i_l2 - i_avg| |i_l3 - i_avg|) / i_avg * 100
      else 0
    let load_estimate := if 0 < fla then i_avg / fla * 100 else 0
    let voltage_within_tolerance :=
      if voltage_tolerance_low ≤ v_avg / rated_voltage * 100 ∧
          v_avg / rated_voltage * 100 ≤ voltage_tolerance_high then true else false
    some { v_avg := v_avg, i_avg := i_avg,
           voltage_unbalance_percent := voltage_unbalance,
           current_unbalance_percent := current_unbalance,
           load_estimate_percent := load_estimate,
           voltage_within_tolerance := voltage_within_tolerance }

/-- Result record of `diagnose_electrical_condition` (`domain` is the constant
"electrical"; the `details` dictionary holds the three fields below). -/
structure ElecResult where
  diagnosis : Diag
  confidence : ℤ
  severity : Severity
  fault_type : Option FaultType
  d_voltage_unbalance : ℚ
  d_current_unbalance : ℚ
  d_load_estimate : ℚ
deriving DecidableEq

/-- Function `diagnose_electrical_condition` of app.py; `rated_voltage` is
`motor_specs["rated_voltage"]`. In the out-of-tolerance branch with
`v_avg` neither below `0.9 × rated` nor above `1.1 × rated`, the source
returns its initialized result (diagnosis "NORMAL_ELECTRICAL", confidence 0). -/
def diagnose_electrical_condition (electrical_calc : ElecCalc) (rated_voltage : ℚ) :
    ElecResult :=
  let vu := electrical_calc.voltage_unbalance_percent
  let cu := electrical_calc.current_unbalance_percent
  let load := electrical_calc.load_estimate_percent
  let v_avg := electrical_calc.v_avg
  if electrical_calc.voltage_within_tolerance = false then
    (if v_avg < rated_voltage * 0.9 then
      { diagnosis := .UNDER_VOLTAGE, confidence := 70,
        severity := if 80 < load then .High else .Medium, fault_type := some .voltage,
        d_voltage_unbalance := vu, d_current_unbalance := cu, d_load_estimate := load }
     else if rated_voltage * 1.1 < v_avg then
      { diagnosis := .OVER_VOLTAGE, confidence := 70, severity := .Medium,
        fault_type := some .voltage,
        d_voltage_unbalance := vu, d_current_unbalance := cu, d_load_estimate := load }
     else
      { diagnosis := .NORMAL_ELECTRICAL, confidence := 0, severity := .Low,
        fault_type := none,
        d_voltage_unbalance := vu, d_current_unbalance := cu, d_load_estimate := load })
  else if voltage_unbalance_critical < vu then
    { diagnosis := .VOLTAGE_UNBALANCE, confidence := 75, severity := .High,
      fault_type := some .voltage,
      d_voltage_unbalance := vu, d_current_unbalance := cu, d_load_estimate := load }
  else if voltage_unbalance_warning < vu then
    { diagnosis := .VOLTAGE_UNBALANCE, confidence := 65, severity := .Medium,
      fault_type := some .voltage,
      d_voltage_unbalance := vu, d_current_unbalance := cu, d_load_estimate := load }
  else if current_unbalance_critical < cu then
    { diagnosis := .CURRENT_UNBALANCE, confidence := 70, severity := .High,
      fault_type := some .current,
      d_voltage_unbalance := vu, d_current_unbalance := cu, d_load_estimate := load }
  else if current_unbalance_warning < cu then
    { diagnosis := .CURRENT_UNBALANCE, confidence := 60, severity := .Medium,
      fault_type := some .current,
      d_voltage_unbalance := vu, d_current_unbalance := cu, d_load_estimate := load }
  else if current_load_critical < load then
    { diagnosis := .OVER_LOAD, confidence := 55, severity := .Medium,
      fault_type := some .load,
      d_voltage_unbalance := vu, d_current_unbalance := cu, d_load_estimate := load }
  else if load < 50 then
    { diagnosis := .UNDER_LOAD, confidence := 50, severity := .Low,
      fault_type := some .load,
      d_voltage_unbalance := vu, d_current_unbalance := cu, d_load_estimate := load }
  else
    { diagnosis := .NORMAL_ELECTRICAL, confidence := 95, severity := .Low,
      fault_type := some .normal,
      d_voltage_unbalance := vu, d_current_unbalance := cu, d_load_estimate := load }

-- ===========================================================================
-- Mechanical domain (diagnose_single_point_mechanical and the system
-- aggregation inlined in main, app.py lines 999-1023)
-- ===========================================================================

/-- Direction component of a measurement-point identifier. The source's
`"Axial" in point` / `"Vertical" in point` substring tests on the 12 point
strings "Pump|Motor DE|NDE Horizontal|Vertical|Axial" are exactly direction
tests. -/
inductive Direction
  | Horizontal
  | Vertical
  | Axial
deriving DecidableEq

/-- The frequency-band energies dictionary `bands` ("Band1", "Band2", "Band3"). -/
structure Bands where
  band1 : ℚ
  band2 : ℚ
  band3 : ℚ
deriving DecidableEq

/-- First spectral peak within 5 % of the running frequency of `target`
(tolerance `0.05 * rpm_hz` as in the source), returning its amplitude:
the `next((p[1] for p in peaks if abs(p[0]-target) < 0.05*rpm_hz), default)`
idiom and the explicit `for`/`break` loop of the unbalance rule. -/
def peakAmpNear (target rpm_hz : ℚ) : List (ℚ × ℚ) → Option ℚ
  | [] => none
  | p :: ps => if |p.1 - target| < 0.05 * rpm_hz then some p.2 else peakAmpNear target rpm_hz ps

/-- Result record of `diagnose_single_point_mechanical` (`domain` is the
constant "mechanical"; `temperature_notes` are presentation strings). -/
structure MechPointResult where
  diagnosis : Diag
  confidence : ℤ
  severity : Severity
  fault_type : Option FaultType
  temperature_status : Option TempStatus
deriving DecidableEq

/-- Function `diagnose_single_point_mechanical` of app.py. `point` enters only through
its direction (see `Direction`); `bearing_temp` is optional. The source's
early-return rule chain becomes a single if-else chain: the unbalance rule is
guarded by `direction ≠ Axial`, misalignment by `= Axial`, looseness by
`= Vertical`, so flattening preserves the first-match-wins order
(unbalance, misalignment, looseness, bearing early/developed/severe, default). -/
def diagnose_single_point_mechanical
    (peaks : List (ℚ × ℚ)) (bands : Bands) (rpm_hz : ℚ) (direction : Direction)
    (overall_vel : ℚ) (has_fft : Bool) (bearing_temp : Option ℤ) : MechPointResult :=
  let temperature_status :=
    match bearing_temp with
    | some t => if 0 < t then some (get_temperature_status t) else none
    | none => none
  -- Rule 1 (unbalance, radial points): first peak within 5 % of 1×, truthy
  -- (`if peak_1x and ...`), and above 70 % of the summed peak amplitudes.
  let peak_1x := peakAmpNear rpm_hz rpm_hz peaks
  let peakSum := (peaks.map (fun p => p.2)).sum
  let unb : Prop := peak_1x ≠ none ∧ peak_1x.getD 0 ≠ 0 ∧ 0.7 * peakSum < peak_1x.getD 0
  -- Rule 2 (misalignment, axial points): peaks at 1× and 2×, 2× amplitude
  -- above half the 1× amplitude.
  let amp_1x := (peakAmpNear rpm_hz rpm_hz peaks).getD 0
  let amp_2x := (peakAmpNear (2 * rpm_hz) rpm_hz peaks).getD 0
  let mis : Prop := (peakAmpNear rpm_hz rpm_hz peaks) ≠ none ∧
    (peakAmpNear (2 * rpm_hz) rpm_hz peaks) ≠ none ∧ 0.5 * amp_1x < amp_2x
  -- Rule 3 (looseness, vertical points): peaks at 1×, 2×, 3× with the
  -- amplitude-ratio conditions.
  let a1 := (peakAmpNear (1 * rpm_hz) rpm_hz peaks).getD 0
  let a2 := (peakAmpNear (2 * rpm_hz) rpm_hz peaks).getD 0
  let a3 := (peakAmpNear (3 * rpm_hz) rpm_hz peaks).getD 0
  let loose : Prop := (peakAmpNear (1 * rpm_hz) rpm_hz peaks) ≠ none ∧
    (peakAmpNear (2 * rpm_hz) rpm_hz peaks) ≠ none ∧
    (peakAmpNear (3 * rpm_hz) rpm_hz peaks) ≠ none ∧
    0 < a1 ∧ 0.5 * a1 < a2 ∧ 0.3 * a1 < a3
  -- Bearing-rule confidence boost: +10 for a supplied spectrum, +10 for a
  -- truthy bearing temperature above elevated_min.
  let conf_boost : ℤ := (if has_fft then 10 else 0) +
    (match bearing_temp with
     | some t => if t ≠ 0 ∧ elevated_min < t then 10 else 0
     | none => 0)
  if has_fft = true ∧ direction ≠ Direction.Axial ∧ unb then
    { diagnosis := .UNBALANCE,
      confidence := min 95 (70 + truncQ (peak_1x.getD 0 / 4.5 * 10)),
      severity := if zoneC < overall_vel then .High
        else if zoneB < overall_vel then .Medium else .Low,
      fault_type := some .low_freq, temperature_status := temperature_status }
  else if has_fft = true ∧ direction = Direction.Axial ∧ mis then
    { diagnosis := .MISALIGNMENT,
      confidence := min 95 (if 0 < amp_1x then 65 + truncQ (amp_2x / amp_1x * 20) else 65),
      severity := if zoneC < overall_vel then .High else .Medium,
      fault_type := some .low_freq, temperature_status := temperature_status }
  else if has_fft = true ∧ direction = Direction.Vertical ∧ loose then
    { diagnosis := .LOOSENESS,
      confidence := min 90 (60 + truncQ ((a2 / a1 + a3 / a1) * 15)),
      severity := if zoneC < overall_vel then .High else .Medium,
      fault_type := some .low_freq, temperature_status := temperature_status }
  else if 2 * baseline3 < bands.band3 ∧ bands.band2 < 1.5 * baseline2 ∧
      bands.band1 < 1.5 * baseline1 then
    { diagnosis := .BEARING_EARLY,
      confidence := min 85 (60 + truncQ ((bands.band3 / baseline3 - 2) * 10) + conf_boost),
      severity := if 3 * baseline3 < bands.band3 then .Medium else .Low,
      fault_type := some .high_freq, temperature_status := temperature_status }
  else if 2 * baseline2 < bands.band2 ∧ 1.5 * baseline3 < bands.band3 ∧
      bands.band1 < 1.5 * baseline1 then
    { diagnosis := .BEARING_DEVELOPED,
      confidence := min 90 (70 + truncQ ((bands.band2 / baseline2 - 2) * 8) + conf_boost),
      severity := if 3 * baseline2 < bands.band2 then .High else .Medium,
      fault_type := some .high_freq, temperature_status := temperature_status }
  else if 2.5 * baseline1 < bands.band1 ∧ 1.5 * baseline2 < bands.band2 then
    { diagnosis := .BEARING_SEVERE,
      confidence := min 95 (80 + truncQ ((bands.band1 / baseline1 - 2.5) * 6)),
      severity := .High,
      fault_type := some .high_freq, temperature_status := temperature_status }
  else if overall_vel ≤ zoneB then
    { diagnosis := .Normal, confidence := 99, severity := .Low,
      fault_type := none, temperature_status := temperature_status }
  else
    { diagnosis := .TidakTerdiagnosa, confidence := if has_fft then 40 else 30,
      severity := .Medium,
      fault_type := none, temperature_status := temperature_status }

/-- The `mech_system` record built in `main` (app.py lines 999-1023): keys
`diagnosis`, `confidence`, `severity`, `fault_type`, `domain` (the latter the
constant "mechanical"). -/
structure MechSystemResult where
  diagnosis : Diag
  confidence : ℤ
  severity : Severity
  fault_type : Option FaultType
deriving DecidableEq

/-- The list comprehensions `[r for r in point_results if r["severity"] == s]`
of the aggregation in `main`. -/
def filterSeverity (s : Severity) : List MechPointResult → List MechPointResult
  | [] => []
  | r :: rs => if r.severity = s then r :: filterSeverity s rs else filterSeverity s rs

/-- The mechanical system aggregation inlined in `main` (app.py lines
999-1023). Start from the default record (Normal / 99 / Low / "normal"); if
any point result has High severity, take the one with maximal confidence
(Python `max` keeps the first among equals) and report it with severity High;
otherwise, if any point result has Medium severity, report the FIRST
Medium-severity point's diagnosis and fault type with the truncated mean
confidence of the Medium-severity points. -/
def aggregate_mechanical_system (point_results : List MechPointResult) :
    MechSystemResult :=
  match filterSeverity Severity.High point_results with
  | worstHead :: worstTail =>
    let worst := worstTail.foldl
      (fun acc r => if acc.confidence < r.confidence then r else acc) worstHead
    { diagnosis := worst.diagnosis, confidence := worst.confidence,
      severity := .High, fault_type := worst.fault_type }
  | [] =>
    match filterSeverity Severity.Medium point_results with
    | m :: ms =>
      { diagnosis := m.diagnosis,
        confidence := truncQ ((((m :: ms).map (fun r => r.confidence)).sum : ℚ) /
          ((m :: ms).length : ℚ)),
        severity := .Medium, fault_type := m.fault_type }
    | [] =>
      { diagnosis := .Normal, confidence := 99, severity := .Low,
        fault_type := some .normal }

/-- Modelled from the code: the aggregated mechanical record built in `main`
(app.py lines 999-1023) consists of exactly the keys `diagnosis`,
`confidence`, `severity`, `fault_type`, `domain`; the token `needs_more_data`
appears nowhere in app.py, so looking such a flag up on any aggregate result
finds it absent (falsy), modelled as the constant `false`. -/
def needs_more_data (_ : MechSystemResult) : Bool := false

-- ===========================================================================
-- Cross-domain correlator (aggregate_cross_domain_diagnosis)
-- ===========================================================================

/-- A finalized per-domain result as consumed by
`aggregate_cross_domain_diagnosis`: the fields it reads from the three domain
dictionaries. `head_dev` models `details["deviations"]["head_dev"]` of the
hydraulic result and `current_unbalance` models `details["current_unbalance"]`
of the electrical result; both are read with `.get(..., 0)` defaults in the
source, hence optional here. -/
structure DomainResult where
  diagnosis : Diag
  confidence : ℤ
  severity : Severity
  fault_type : Option FaultType
  head_dev : Option ℚ
  current_unbalance : Option ℚ
deriving DecidableEq

/-- Result record of `aggregate_cross_domain_diagnosis` (`location` stays the
constant "N/A" in the source; `domain_breakdown` echoes the three inputs;
`correlation_notes` and `temperature_notes` are presentation strings). -/
structure IntegratedResult where
  diagnosis : IntDiag
  confidence : ℤ
  severity : Severity
deriving DecidableEq

/-- Pattern 1 of the correlator ("Voltage → Mechanical → Hydraulic"). -/
def patternA (mech hyd elec : DomainResult) : Prop :=
  elec.fault_type = some FaultType.voltage ∧
  (mech.diagnosis = Diag.MISALIGNMENT ∨ mech.diagnosis = Diag.LOOSENESS) ∧
  hyd.head_dev.getD 0 < -5

instance (mech hyd elec : DomainResult) : Decidable (patternA mech hyd elec) := by
  unfold patternA
  infer_instance

/-- Pattern 2 of the correlator ("Cavitation → Wear → Current"). -/
def patternB (mech hyd elec : DomainResult) : Prop :=
  hyd.fault_type = some FaultType.cavitation ∧
  mech.fault_type = some FaultType.wear ∧
  (5 : ℚ) < elec.current_unbalance.getD 0

instance (mech hyd elec : DomainResult) : Decidable (patternB mech hyd elec) := by
  unfold patternB
  infer_instance

/-- Pattern 3 of the correlator ("High Current + Low Efficiency"). -/
def patternC (hyd elec : DomainResult) : Prop :=
  elec.diagnosis = Diag.OVER_LOAD ∧ hyd.fault_type = some FaultType.efficiency

instance (hyd elec : DomainResult) : Decidable (patternC hyd elec) := by
  unfold patternC
  infer_instance

/-- The `diagnosis_consistent` flag passed to the temperature adjustment:
`mech_fault is not None and mech_fault != "normal"`. -/
def diagnosisConsistent (mech : DomainResult) : Bool :=
  match mech.fault_type with
  | none => false
  | some ft => if ft = FaultType.normal then false else true

/-- The temperature part of the correlation bonus: 0 without temperature data,
otherwise the clamped adjustment of
`calculate_temperature_confidence_adjustment`. -/
def tempBonus (mech : DomainResult) (temp_data : Option TempMap) : ℤ :=
  match temp_data with
  | none => 0
  | some td => calculate_temperature_confidence_adjustment td (diagnosisConsistent mech)

/-- The severity fusion of the correlator: High if any domain severity is
High, else Medium if any is Medium, else Low. -/
def combinedSeverity (mech_sev hyd_sev elec_sev : Severity) : Severity :=
  if mech_sev = Severity.High ∨ hyd_sev = Severity.High ∨ elec_sev = Severity.High then .High
  else if mech_sev = Severity.Medium ∨ hyd_sev = Severity.Medium ∨ elec_sev = Severity.Medium
    then .Medium
  else .Low

/-- One step of the critical-temperature loop of the correlator
(`if temp and temp > critical_min`): the reading is truthy and strictly above
`critical_min`. -/
def criticalReading (t : Option ℤ) : Prop :=
  t.getD 0 ≠ 0 ∧ critical_min < t.getD 0

instance (t : Option ℤ) : Decidable (criticalReading t) := by
  unfold criticalReading
  infer_instance

/-- The critical-temperature loop of the correlator over the four dictionary
values. -/
def anyCriticalTemp (td : TempMap) : Prop :=
  criticalReading td.pumpDE ∨ criticalReading td.pumpNDE ∨
  criticalReading td.motorDE ∨ criticalReading td.motorNDE

instance (td : TempMap) : Decidable (anyCriticalTemp td) := by
  unfold anyCriticalTemp
  infer_instance

/-- Predicate `anyCriticalTemp` lifted over the optional temperature dictionary
(`if temp_data:` — `main` always builds it with all four keys, so the
dictionary is truthy exactly when supplied). -/
def anyCriticalTempOpt (temp_data : Option TempMap) : Prop :=
  match temp_data with
  | none => False
  | some td => anyCriticalTemp td

instance (temp_data : Option TempMap) : Decidable (anyCriticalTempOpt temp_data) :=
  match temp_data with
  | none => isFalse (fun h => h)
  | some _ => inferInstanceAs (Decidable (anyCriticalTemp _))

/-- The list comprehension
`[r.get("confidence", 0) for r in results if r.get("confidence", 0) > 0]`. -/
def positiveConfidences : List ℤ → List ℤ
  | [] => []
  | c :: cs => if 0 < c then c :: positiveConfidences cs else positiveConfidences cs

/-- Base confidence of the correlator: the `numpy` mean of the positive
per-domain confidences, 0 when the filtered list is empty. -/
def baseConfidence (mech hyd elec : DomainResult) : ℚ :=
  let confidences := positiveConfidences [mech.confidence, hyd.confidence, elec.confidence]
  if confidences = [] then 0 else ((confidences.sum : ℚ) / (confidences.length : ℚ))

/-- Function `aggregate_cross_domain_diagnosis` of app.py. The three patterns are
checked in order; each adds its bonus and overwrites the diagnosis; the
temperature adjustment joins the same bonus accumulator; severity is the
domain maximum, escalated to High on a critical bearing temperature; the final
confidence is `min(95, int(base + bonus))`. -/
def aggregate_cross_domain_diagnosis
    (mech_result hyd_result elec_result : DomainResult) (temp_data : Option TempMap) :
    IntegratedResult :=
  let diag1 := if patternA mech_result hyd_result elec_result then IntDiag.CoupledFault
    else IntDiag.NoCorrelation
  let bonus1 : ℤ := if patternA mech_result hyd_result elec_result then 15 else 0
  let diag2 := if patternB mech_result hyd_result elec_result then IntDiag.CascadingCavitation
    else diag1
  let bonus2 := bonus1 + (if patternB mech_result hyd_result elec_result then 20 else 0)
  let diag3 := if patternC hyd_result elec_result then IntDiag.InternalLoss else diag2
  let bonus3 := bonus2 + (if patternC hyd_result elec_result then 10 else 0)
  let bonus4 := bonus3 + tempBonus mech_result temp_data
  let sev0 := combinedSeverity mech_result.severity hyd_result.severity elec_result.severity
  let sev := if anyCriticalTempOpt temp_data then Severity.High else sev0
  { diagnosis := diag3,
    confidence := min 95 (truncQ (baseConfidence mech_result hyd_result elec_result +
      (bonus4 : ℚ))),
    severity := sev }

-- ===========================================================================
-- Spec-side definition for the temperature-adjustment claim
-- ===========================================================================

/-- The per-reading contribution table as the specification states it: for each
non-zero reading, +20 (Critical) / +15 (Warning) when the mechanical diagnosis
is consistent, −10 (Critical) / −5 (Warning) when it is not, and +10 for the
Elevated zone only when consistent with no penalty otherwise. To be compared
with `loopBody`, the code's loop body. -/
def claimedReadingContribution (t : Option ℤ) (consistent : Bool) : ℤ :=
  match t with
  | none => 0
  | some v =>
    if v = 0 then 0
    else
      match get_temperature_status v with
      | .Critical => if consistent then 20 else -10
      | .Warning => if consistent then 15 else -5
      | .Elevated => if consistent then 10 else 0
      | .Normal => 0

-- ===========================================================================
-- Concrete inputs used by the claim theorems
-- ===========================================================================

/-- Number of points of a list carrying a given diagnosis
(`len([r for r in results if r["diagnosis"] == d])`). -/
def countDiag (d : Diag) : List MechPointResult → ℕ
  | [] => 0
  | r :: rs => (if r.diagnosis = d then 1 else 0) + countDiag d rs

/-- An UNBALANCE point result exactly as the point classifier produces on
Example 2's data (see `C3`): Medium severity, confidence 78, low_freq. -/
def c1FaultPoint : MechPointResult :=
  { diagnosis := .UNBALANCE, confidence := 78, severity := .Medium,
    fault_type := some .low_freq, temperature_status := none }

/-- A Normal point result as the point classifier produces below Zone B. -/
def c1NormalPoint : MechPointResult :=
  { diagnosis := .Normal, confidence := 99, severity := .Low,
    fault_type := none, temperature_status := none }

/-- Twelve point results: exactly 2 UNBALANCE (Medium) and 10 Normal. -/
def c1Points : List MechPointResult :=
  [c1FaultPoint, c1FaultPoint,
   c1NormalPoint, c1NormalPoint, c1NormalPoint, c1NormalPoint, c1NormalPoint,
   c1NormalPoint, c1NormalPoint, c1NormalPoint, c1NormalPoint, c1NormalPoint]

/-- A single Medium-severity point for the C1 witness. -/
def c1wPoint : MechPointResult :=
  { diagnosis := .MISALIGNMENT, confidence := 80, severity := .Medium,
    fault_type := some .low_freq, temperature_status := none }

/-- An inconclusive point result ("Tidak Terdiagnosa", confidence 30, Medium)
as the point classifier produces without a spectrum above Zone B. -/
def c5FaultPoint : MechPointResult :=
  { diagnosis := .TidakTerdiagnosa, confidence := 30, severity := .Medium,
    fault_type := none, temperature_status := none }

/-- Twelve point results: 2 inconclusive (Medium, confidence 30), 10 Normal. -/
def c5Points : List MechPointResult :=
  [c5FaultPoint, c5FaultPoint,
   c1NormalPoint, c1NormalPoint, c1NormalPoint, c1NormalPoint, c1NormalPoint,
   c1NormalPoint, c1NormalPoint, c1NormalPoint, c1NormalPoint, c1NormalPoint]

/-- A domain result with confidence 0 and no fault (a well-formed
`DomainResult` per the data model, whose confidence range is 0–99). -/
def c2Mech : DomainResult :=
  { diagnosis := .Normal, confidence := 0, severity := .Low, fault_type := none,
    head_dev := none, current_unbalance := none }

/-- Hydraulic domain result with confidence 0. -/
def c2Hyd : DomainResult :=
  { diagnosis := .NORMAL_OPERATION, confidence := 0, severity := .Low, fault_type := none,
    head_dev := none, current_unbalance := none }

/-- Electrical domain result with confidence 0. -/
def c2Elec : DomainResult :=
  { diagnosis := .NORMAL_ELECTRICAL, confidence := 0, severity := .Low, fault_type := none,
    head_dev := none, current_unbalance := none }

/-- A temperature map with one Critical reading (95 °C at Pump DE). -/
def c2Temp : TempMap :=
  { pumpDE := some 95, pumpNDE := none, motorDE := none, motorNDE := none }

/-- Low-severity domain results for the C4 witness. -/
def c4Mech : DomainResult :=
  { diagnosis := .Normal, confidence := 99, severity := .Low, fault_type := some .normal,
    head_dev := none, current_unbalance := none }

/-- Hydraulic input for the C4 witness. -/
def c4Hyd : DomainResult :=
  { diagnosis := .NORMAL_OPERATION, confidence := 95, severity := .Low,
    fault_type := some .normal, head_dev := none, current_unbalance := none }

/-- Electrical input for the C4 witness. -/
def c4Elec : DomainResult :=
  { diagnosis := .NORMAL_ELECTRICAL, confidence := 95, severity := .Low,
    fault_type := some .normal, head_dev := none, current_unbalance := none }

/-- A temperature map whose Motor DE reading (96 °C) exceeds the Critical-zone
floor. -/
def c4Temp : TempMap :=
  { pumpDE := some 65, pumpNDE := some 63, motorDE := some 96, motorNDE := some 66 }

/-- Example 2's spectrum: peaks (29.67 Hz, 4.0), (59.3 Hz, 0.5), (88.9 Hz, 0.2). -/
def ex2peaks : List (ℚ × ℚ) := [(29.67, 4.0), (59.3, 0.5), (88.9, 0.2)]

/-- Band energies at the UI defaults (unused by the unbalance rule, which
returns before the band rules are consulted). -/
def ex2bands : Bands := { band1 := 0.2, band2 := 0.15, band3 := 0.1 }

/-- The mechanical point classification of Example 2: Pump DE Horizontal,
running frequency 1780/60 Hz, overall velocity 6.0 mm/s, spectrum supplied,
no bearing temperature. -/
def ex2Result : MechPointResult :=
  diagnose_single_point_mechanical ex2peaks ex2bands (1780 / 60) Direction.Horizontal
    6.0 true none

/-- The derived electrical parameters of Example 4 (voltages 400/402/398 V,
currents 82/84/83 A, rated 400 V / 85 A), written out exactly:
`v_avg = 400`, `i_avg = 83`, voltage unbalance `2/400×100 = 1/2` %,
current unbalance `1/83×100 = 100/83` %, load `83/85×100 = 1660/17` %. -/
def ex4calc : ElecCalc :=
  { v_avg := 400, i_avg := 83, voltage_unbalance_percent := 1 / 2,
    current_unbalance_percent := 100 / 83, load_estimate_percent := 1660 / 17,
    voltage_within_tolerance := true }

/-- Example 3's primary hydraulic measurements: suction 1.2 bar, discharge
8.5 bar, flow 100 m³/h, motor power 45 kW, SG 0.84. -/
def ex3Calc : HydCalc := calculate_hydraulic_parameters 1.2 8.5 100 45 0.84

/-- Example 3's design reference (rated head 85 m, BEP efficiency 78 %),
parameterized by the design flow and required NPSH. -/
def ex3Design (flow_design npshr : ℚ) : DesignParams :=
  { rated_flow_m3h := flow_design, rated_head_m := 85, bep_efficiency := 78,
    npsh_required_m := npshr }

/-- Diesel fluid properties used in Example 3 (vapor pressure 0.5 kPa,
SG 0.84). -/
def ex3Fluid : FluidProps := { vapor_pressure_kpa_38C := 0.5, sg := 0.84 }

/-- Example 3's hydraulic diagnosis, parameterized by design flow, required
NPSH and the (irrelevant) fluid-condition observation; noise type is Normal. -/
def ex3Result (flow_design npshr : ℚ) (fc : FluidCond) : HydResult :=
  diagnose_hydraulic_single_point ex3Calc (ex3Design flow_design npshr) ex3Fluid
    { noise_type := .Normal, fluid_condition := fc }
    { flow_aktual := 100, suction_pressure_bar := 1.2 }

-- ===========================================================================
-- Helper lemmas
-- ===========================================================================

theorem sevRank_le_two (s : Severity) : sevRank s ≤ 2 := by
  cases s <;> simp [sevRank]

theorem sevRank_combined (a b c : Severity) :
    max (sevRank a) (max (sevRank b) (sevRank c)) ≤ sevRank (combinedSeverity a b c) := by
  cases a <;> cases b <;> cases c <;> simp [combinedSeverity, sevRank]

theorem loopBody_eq_claimed (t : Option ℤ) (consistent : Bool) :
    loopBody t consistent = claimedReadingContribution t consistent := by
  cases t with
  | none => rfl
  | some v =>
    by_cases hv : v = 0
    · simp [loopBody, claimedReadingContribution, hv]
    · cases hst : get_temperature_status v <;>
        simp [loopBody, claimedReadingContribution, hv, hst]

theorem tempAdjustment_lower (td : TempMap) (c : Bool) :
    -10 ≤ calculate_temperature_confidence_adjustment td c :=
  le_min (by norm_num) (le_max_left _ _)

theorem tempAdjustment_upper (td : TempMap) (c : Bool) :
    calculate_temperature_confidence_adjustment td c ≤ 20 :=
  min_le_left _ _

theorem tempBonus_lower (m : DomainResult) (td : Option TempMap) :
    -10 ≤ tempBonus m td := by
  cases td with
  | none => simp [tempBonus]
  | some t => exact tempAdjustment_lower t (diagnosisConsistent m)

theorem positiveConfidences_sum_nonneg (l : List ℤ) :
    0 ≤ (positiveConfidences l).sum := by
  induction l with
  | nil => simp [positiveConfidences]
  | cons c cs ih =>
    by_cases hc : 0 < c
    · simp only [positiveConfidences, if_pos hc, List.sum_cons]
      exact add_nonneg (le_of_lt hc) ih
    · simpa [positiveConfidences, if_neg hc] using ih

theorem baseConfidence_nonneg (m h e : DomainResult) : 0 ≤ baseConfidence m h e := by
  unfold baseConfidence
  by_cases hl : positiveConfidences [m.confidence, h.confidence, e.confidence] = []
  · simp [hl]
  · simp only [if_neg hl]
    apply div_nonneg
    · exact_mod_cast positiveConfidences_sum_nonneg _
    · positivity

theorem neg_ten_le_truncQ (q : ℚ) (hq : -10 ≤ q) : (-10 : ℤ) ≤ truncQ q := by
  unfold truncQ
  by_cases h0 : 0 ≤ q
  · rw [if_pos h0]
    calc (-10 : ℤ) ≤ 0 := by norm_num
      _ ≤ ⌊q⌋ := Int.floor_nonneg.mpr h0
  · rw [if_neg h0]
    calc (-10 : ℤ) = ⌈((-10 : ℤ) : ℚ)⌉ := (Int.ceil_intCast (-10)).symm
      _ ≤ ⌈q⌉ := Int.ceil_mono (by exact_mod_cast hq)

-- ===========================================================================
-- Claim theorems
-- ===========================================================================

theorem ex2Result_eq :
    ex2Result =
      { diagnosis := .UNBALANCE, confidence := 78, severity := .Medium,
        fault_type := some .low_freq, temperature_status := none } := by
  norm_num [ex2Result, diagnose_single_point_mechanical, peakAmpNear, ex2peaks, ex2bands,
    truncQ, zoneB, zoneC, abs_of_pos, abs_of_nonneg, abs_of_neg, abs_of_nonpos]
  simp

/-- C3, counterexample: on Example 2's input (Pump DE Horizontal, running
frequency 1780/60 Hz, peaks [(29.67, 4.0), (59.3, 0.5), (88.9, 0.2)], overall
velocity 6.0 mm/s) the classifier's confidence is 78, not the claimed 79: the
source truncates (`int`) rather than rounds. -/
theorem C3_counterexample : ex2Result.confidence = 78 ∧ (78 : ℤ) ≠ 79 :=
  ⟨by rw [ex2Result_eq], by norm_num⟩

/-- C3 (amended): on Example 2's input the classifier returns diagnosis
UNBALANCE with severity Medium and confidence exactly
78 = min(95, 70 + int(4.0/4.5 × 10)) — truncation, not rounding, of
4.0/4.5 × 10 ≈ 8.89. -/
theorem C3_amended_example2 :
    ex2Result.diagnosis = Diag.UNBALANCE ∧ ex2Result.severity = Severity.Medium ∧
    ex2Result.confidence = min 95 (70 + truncQ (4 / 4.5 * 10)) ∧
    ex2Result.confidence = 78 := by
  rw [ex2Result_eq]
  refine ⟨rfl, rfl, ?_, rfl⟩
  norm_num [truncQ]

/-- C6: for every bearing-temperature map and every value of the
diagnosis-consistency flag, the temperature adjustment equals the clamp to
[−10, +20] of the sum of the claimed per-reading contributions (+20/+15 when
consistent and Critical/Warning, −10/−5 when inconsistent, +10 for Elevated
only when consistent) plus the ΔT localization bonuses, and in particular it
always lies in [−10, +20]. -/
theorem C6_temperature_adjustment (td : TempMap) (c : Bool) :
    calculate_temperature_confidence_adjustment td c =
      min 20 (max (-10)
        (claimedReadingContribution td.pumpDE c + claimedReadingContribution td.pumpNDE c +
         claimedReadingContribution td.motorDE c + claimedReadingContribution td.motorNDE c +
         deltaLocalizationBonus td)) ∧
    -10 ≤ calculate_temperature_confidence_adjustment td c ∧
    calculate_temperature_confidence_adjustment td c ≤ 20 :=
  ⟨by simp only [calculate_temperature_confidence_adjustment, loopBody_eq_claimed],
   tempAdjustment_lower td c, tempAdjustment_upper td c⟩

/-- C10: the correlator's integrated diagnosis is the label of the LAST
matching causal pattern in evaluation order (Pattern C "Internal Loss
Investigation Required" over Pattern B "Cascading Failure: Cavitation Origin"
over Pattern A "Electrical-Mechanical-Hydraulic Coupled Fault", default
"Tidak Ada Korelasi Antar Domain Terdeteksi"), while the confidence bonuses of
ALL matching patterns (+15, +20, +10) are summed into the confidence
accumulator together with the temperature adjustment. -/
theorem C10_pattern_precedence (m h e : DomainResult) (td : Option TempMap) :
    (aggregate_cross_domain_diagnosis m h e td).diagnosis =
      (if patternC h e then IntDiag.InternalLoss
       else if patternB m h e then IntDiag.CascadingCavitation
       else if patternA m h e then IntDiag.CoupledFault
       else IntDiag.NoCorrelation) ∧
    (aggregate_cross_domain_diagnosis m h e td).confidence =
      min 95 (truncQ (baseConfidence m h e +
        (((if patternA m h e then 15 else 0) + (if patternB m h e then 20 else 0) +
          (if patternC h e then 10 else 0) + tempBonus m td : ℤ) : ℚ))) :=
  ⟨rfl, rfl⟩

/-- C2, counterexample: for the triple of confidence-0 domain results
(`c2Mech`, `c2Hyd`, `c2Elec` — well-formed `DomainResult`s, the data model
allows confidence 0) and the map with a single Critical 95 °C reading, the
integrated confidence is −10: the source clamps with `min(95, ...)` only, and
the inconsistent-diagnosis temperature penalty drives the total below 0, so
the claimed interval [0, 95] is violated. -/
theorem C2_counterexample :
    (aggregate_cross_domain_diagnosis c2Mech c2Hyd c2Elec (some c2Temp)).confidence = -10 ∧
    (aggregate_cross_domain_diagnosis c2Mech c2Hyd c2Elec (some c2Temp)).confidence < 0 := by
  have h : (aggregate_cross_domain_diagnosis c2Mech c2Hyd c2Elec (some c2Temp)).confidence
      = -10 := by
    norm_num [aggregate_cross_domain_diagnosis, patternA, patternB, patternC, tempBonus,
      diagnosisConsistent, calculate_temperature_confidence_adjustment, loopBody,
      deltaLocalizationBonus, present, get_temperature_status, normal_max, elevated_max,
      warning_max, baseConfidence, positiveConfidences, truncQ,
      c2Mech, c2Hyd, c2Elec, c2Temp]
    simp
    norm_num [Int.ceil_neg]
  exact ⟨h, by rw [h]; norm_num⟩

/-- C2 (amended): for every triple of domain results and every optional
bearing-temperature map, the confidence of the integrated result lies in
[−10, 95] — bounded above by 95 as claimed, but bounded below only by −10
(the floor of the clamped temperature adjustment), not by 0. -/
theorem C2_amended_confidence_bounds (m h e : DomainResult) (td : Option TempMap) :
    -10 ≤ (aggregate_cross_domain_diagnosis m h e td).confidence ∧
    (aggregate_cross_domain_diagnosis m h e td).confidence ≤ 95 := by
  have hconf : (aggregate_cross_domain_diagnosis m h e td).confidence =
      min 95 (truncQ (baseConfidence m h e +
        (((if patternA m h e then 15 else 0) + (if patternB m h e then 20 else 0) +
          (if patternC h e then 10 else 0) + tempBonus m td : ℤ) : ℚ))) := rfl
  constructor
  · rw [hconf]
    refine le_min (by norm_num) (neg_ten_le_truncQ _ ?_)
    have hbase := baseConfidence_nonneg m h e
    have hA : (0 : ℤ) ≤ (if patternA m h e then 15 else 0) := by split_ifs <;> norm_num
    have hB : (0 : ℤ) ≤ (if patternB m h e then 20 else 0) := by split_ifs <;> norm_num
    have hC : (0 : ℤ) ≤ (if patternC h e then 10 else 0) := by split_ifs <;> norm_num
    have hT := tempBonus_lower m td
    have hb : (-10 : ℤ) ≤ (if patternA m h e then 15 else 0) +
        (if patternB m h e then 20 else 0) + (if patternC h e then 10 else 0) +
        tempBonus m td := by linarith
    have hb' : (-10 : ℚ) ≤ (((if patternA m h e then 15 else 0) +
        (if patternB m h e then 20 else 0) + (if patternC h e then 10 else 0) +
        tempBonus m td : ℤ) : ℚ) := by exact_mod_cast hb
    linarith
  · rw [hconf]
    exact min_le_left _ _

/-- C4: for every triple of finalized domain results and every optional
bearing-temperature map, the integrated severity is at least the maximum of
the three domain severities (in the rank order Low < Medium < High), and it
equals High whenever the supplied temperature map contains a reading strictly
above the Critical-zone floor `critical_min` = 90 °C, regardless of the domain
severities. -/
theorem C4_severity_monotone_and_escalation (m h e : DomainResult) (td : Option TempMap) :
    max (sevRank m.severity) (max (sevRank h.severity) (sevRank e.severity)) ≤
      sevRank (aggregate_cross_domain_diagnosis m h e td).severity ∧
    ∀ t v, td = some t →
      (t.pumpDE = some v ∨ t.pumpNDE = some v ∨ t.motorDE = some v ∨ t.motorNDE = some v) →
      critical_min < v →
      (aggregate_cross_domain_diagnosis m h e td).severity = Severity.High := by
  have hsev : (aggregate_cross_domain_diagnosis m h e td).severity =
      (if anyCriticalTempOpt td then Severity.High
       else combinedSeverity m.severity h.severity e.severity) := rfl
  constructor
  · rw [hsev]
    by_cases hc : anyCriticalTempOpt td
    · rw [if_pos hc]
      exact max_le (sevRank_le_two _) (max_le (sevRank_le_two _) (sevRank_le_two _))
    · rw [if_neg hc]
      exact sevRank_combined _ _ _
  · intro t v ht hmem hv
    have h90 : (90 : ℤ) < v := hv
    have hv0 : v ≠ 0 := by omega
    have hcrit : anyCriticalTempOpt (some t) := by
      rcases hmem with hf | hf | hf | hf
      · exact Or.inl ⟨by rw [hf]; simpa using hv0, by rw [hf]; simpa using hv⟩
      · exact Or.inr (Or.inl ⟨by rw [hf]; simpa using hv0, by rw [hf]; simpa using hv⟩)
      · exact Or.inr (Or.inr (Or.inl
          ⟨by rw [hf]; simpa using hv0, by rw [hf]; simpa using hv⟩))
      · exact Or.inr (Or.inr (Or.inr
          ⟨by rw [hf]; simpa using hv0, by rw [hf]; simpa using hv⟩))
    rw [hsev, ht, if_pos hcrit]

theorem C4_witness :
    c4Temp.motorDE = some 96 ∧ critical_min < 96 ∧
    (aggregate_cross_domain_diagnosis c4Mech c4Hyd c4Elec (some c4Temp)).severity =
      Severity.High :=
  ⟨rfl, by norm_num [critical_min],
   (C4_severity_monotone_and_escalation c4Mech c4Hyd c4Elec (some c4Temp)).2 c4Temp 96 rfl
     (Or.inr (Or.inr (Or.inl rfl))) (by norm_num [critical_min])⟩

/-- C1, counterexample: a 12-point set with exactly 2 UNBALANCE points (of
Medium severity, confidence 78 — exactly what the point classifier produces on
Example 2's data) and 10 Normal points. The claim requires the aggregate to be
Normal; the source's aggregation (which applies no quorum: any Medium-severity
point suffices) reports UNBALANCE. -/
theorem C1_counterexample :
    c1Points.length = 12 ∧
    countDiag Diag.UNBALANCE c1Points = 2 ∧
    countDiag Diag.Normal c1Points = 10 ∧
    (aggregate_mechanical_system c1Points).diagnosis = Diag.UNBALANCE ∧
    Diag.UNBALANCE ≠ Diag.Normal := by
  refine ⟨rfl, ?_, ?_, ?_, by simp⟩
  · simp [countDiag, c1Points, c1FaultPoint, c1NormalPoint]
  · simp [countDiag, c1Points, c1FaultPoint, c1NormalPoint]
  · simp [aggregate_mechanical_system, filterSeverity, c1Points, c1FaultPoint,
      c1NormalPoint]

/-- C1 (amended): the mechanical aggregator applies no quorum at all. For any
list of point results with no High-severity point and at least one
Medium-severity point, it reports the FIRST Medium-severity point's diagnosis
and fault type, with the truncated mean confidence of the Medium-severity
points and severity Medium — regardless of how many points agree (in
particular, 2 agreeing points out of 12, or even a single one, already carry
the vote; with no Medium or High point the result is Normal with confidence
99, and any High-severity point overrides this branch entirely). -/
theorem C1_amended_no_quorum (rs : List MechPointResult) (m : MechPointResult)
    (ms : List MechPointResult)
    (hhigh : filterSeverity Severity.High rs = [])
    (hmed : filterSeverity Severity.Medium rs = m :: ms) :
    aggregate_mechanical_system rs =
      { diagnosis := m.diagnosis,
        confidence := truncQ ((((m :: ms).map (fun r => r.confidence)).sum : ℚ) /
          ((m :: ms).length : ℚ)),
        severity := Severity.Medium, fault_type := m.fault_type } := by
  unfold aggregate_mechanical_system
  rw [hhigh, hmed]

theorem C1_witness :
    filterSeverity Severity.High [c1wPoint] = [] ∧
    filterSeverity Severity.Medium [c1wPoint] = [c1wPoint] ∧
    aggregate_mechanical_system [c1wPoint] =
      { diagnosis := Diag.MISALIGNMENT, confidence := 80, severity := Severity.Medium,
        fault_type := some FaultType.low_freq } := by
  have h1 : filterSeverity Severity.High [c1wPoint] = [] := by
    simp [filterSeverity, c1wPoint]
  have h2 : filterSeverity Severity.Medium [c1wPoint] = [c1wPoint] := by
    simp [filterSeverity, c1wPoint]
  refine ⟨h1, h2, ?_⟩
  rw [C1_amended_no_quorum [c1wPoint] c1wPoint [] h1 h2]
  norm_num [truncQ, c1wPoint]

/-- C5, counterexample: a 12-point set whose aggregate has confidence 30 < 70
and diagnosis "Tidak Terdiagnosa" ≠ Normal, yet carries no raised
needs_more_data flag — the source never builds such a flag (the token appears
nowhere in app.py), so the claimed biconditional fails in the only direction it
can be tested. -/
theorem C5_counterexample :
    (aggregate_mechanical_system c5Points).confidence < 70 ∧
    (aggregate_mechanical_system c5Points).diagnosis ≠ Diag.Normal ∧
    needs_more_data (aggregate_mechanical_system c5Points) = false := by
  have h : aggregate_mechanical_system c5Points =
      { diagnosis := .TidakTerdiagnosa, confidence := 30, severity := .Medium,
        fault_type := none } := by
    simp [aggregate_mechanical_system, filterSeverity, c5Points, c5FaultPoint,
      c1NormalPoint]
    norm_num [truncQ]
  rw [h]
  exact ⟨by norm_num, by simp, rfl⟩

/-- C5 (amended): the aggregated mechanical record never carries a
needs_more_data flag: the record built in `main` (lines 999-1023) has exactly
the keys diagnosis/confidence/severity/fault_type/domain, and no code in
app.py ever raises such a flag, whatever the confidence and diagnosis are. -/
theorem C5_amended_flag_never_raised (rs : List MechPointResult) :
    needs_more_data (aggregate_mechanical_system rs) = false := rfl

/-- C7: on Example 3's inputs (suction 1.2 bar, discharge 8.5 bar, flow
100 m³/h, power 45 kW, SG 0.84, design head 85 m, BEP efficiency 78 %, noise
Normal, NPSH margin not below 0.5 m), for any positive design flow: the
derived head 1241/14 ≈ 88.64 m is within 0.1 of 88.7 m, the head deviation
30/7 ≈ 4.3 % lies within ±5 %, the efficiency deviation is below −10 %, the
deviation pattern is EFFICIENCY_DROP, and the hydraulic diagnosis is
EFFICIENCY_DROP. -/
theorem C7_example3 (flow_design npshr : ℚ) (fc : FluidCond)
    (_hq : 0 < flow_design)
    (_hm : 0.5 ≤ npsh_available 1.2 0.5 0.84 - npshr) :
    |ex3Calc.head_m - 88.7| ≤ 0.1 ∧
    |dev_pct ex3Calc.head_m 85| ≤ 5 ∧
    dev_pct ex3Calc.efficiency_percent 78 < -10 ∧
    (classify_hydraulic_performance ex3Calc.head_m 85 ex3Calc.efficiency_percent 78 100
      flow_design).1 = HydPattern.EFFICIENCY_DROP ∧
    (ex3Result flow_design npshr fc).diagnosis = Diag.EFFICIENCY_DROP := by
  have hcalc : ex3Calc =
      { delta_p_bar := 73/10, head_m := 1241/14, hydraulic_power_kw := 405807/20000,
        efficiency_percent := 135269/3000 } := by
    norm_num [ex3Calc, calculate_hydraulic_parameters]
  refine ⟨?_, ?_, ?_, ?_, ?_⟩
  · rw [hcalc]
    norm_num [abs_of_pos, abs_of_nonneg, abs_of_neg, abs_of_nonpos]
  · rw [hcalc]
    norm_num [dev_pct, abs_of_pos, abs_of_nonneg, abs_of_neg, abs_of_nonpos]
  · rw [hcalc]
    norm_num [dev_pct]
  · rw [hcalc]
    norm_num [classify_hydraulic_performance, dev_pct,
      abs_of_pos, abs_of_nonneg, abs_of_neg, abs_of_nonpos]
  · rw [ex3Result, hcalc]
    norm_num [diagnose_hydraulic_single_point, classify_hydraulic_performance, dev_pct,
      ex3Design, ex3Fluid, npsh_available,
      abs_of_pos, abs_of_nonneg, abs_of_neg, abs_of_nonpos]
    simp

theorem C7_witness :
    (0 : ℚ) < 120 ∧ (0.5 : ℚ) ≤ npsh_available 1.2 0.5 0.84 - 4.2 ∧
    (ex3Result 120 4.2 FluidCond.Jernih).diagnosis = Diag.EFFICIENCY_DROP :=
  ⟨by norm_num, by norm_num [npsh_available],
   (C7_example3 120 4.2 FluidCond.Jernih (by norm_num)
     (by norm_num [npsh_available])).2.2.2.2⟩

/-- C8: on Example 4's inputs (voltages 400/402/398 V at rated 400 V, currents
82/84/83 A at rated 85 A) the derived voltage unbalance is exactly 0.5 %, the
current unbalance 100/83 ≈ 1.2 %, the load estimate 1660/17 ≈ 97.6 %, and the
electrical classifier returns NORMAL_ELECTRICAL with confidence 95 and
severity Low. -/
theorem C8_example4 :
    calculate_electrical_parameters 400 402 398 82 84 83 400 85 = some ex4calc ∧
    ex4calc.voltage_unbalance_percent = 0.5 ∧
    |ex4calc.current_unbalance_percent - 1.2| ≤ 0.01 ∧
    |ex4calc.load_estimate_percent - 97.6| ≤ 0.05 ∧
    (diagnose_electrical_condition ex4calc 400).diagnosis = Diag.NORMAL_ELECTRICAL ∧
    (diagnose_electrical_condition ex4calc 400).confidence = 95 ∧
    (diagnose_electrical_condition ex4calc 400).severity = Severity.Low := by
  have hd : diagnose_electrical_condition ex4calc 400 =
      { diagnosis := .NORMAL_ELECTRICAL, confidence := 95, severity := .Low,
        fault_type := some .normal, d_voltage_unbalance := 1/2,
        d_current_unbalance := 100/83, d_load_estimate := 1660/17 } := by
    norm_num [diagnose_electrical_condition, ex4calc, voltage_unbalance_critical,
      voltage_unbalance_warning, current_unbalance_critical, current_unbalance_warning,
      current_load_critical]
  refine ⟨?_, ?_, ?_, ?_, by rw [hd], by rw [hd], by rw [hd]⟩
  · norm_num [calculate_electrical_parameters, voltage_tolerance_low,
      voltage_tolerance_high, ex4calc, max_def,
      abs_of_pos, abs_of_nonneg, abs_of_neg, abs_of_nonpos]
  · norm_num [ex4calc]
  · norm_num [ex4calc, abs_of_pos, abs_of_nonneg, abs_of_neg, abs_of_nonpos]
  · norm_num [ex4calc, abs_of_pos, abs_of_nonneg, abs_of_neg, abs_of_nonpos]

/-- C9, counterexample: a derivation call does raise on a zero divisor.
`calculate_electrical_parameters` divides `v_avg / rated_voltage` for the
tolerance check without a zero guard, so the call with rated voltage 0 raises
`ZeroDivisionError` in Python (modelled: returns no record), refuting "for
every input, the derivation functions never raise on zero divisors" and
"every such call completes and returns a result record". -/
theorem C9_counterexample :
    calculate_electrical_parameters 400 402 398 82 84 83 0 85 = none := by
  simp [calculate_electrical_parameters]

/-- C9 (amended): the three advertised zero-guards do hold — with SG = 0 the
head formula returns 0, with design head = 0 the head-deviation percentage
returns 0, and with FLA = 0 the load estimate returns 0 — and every such call
completes, except that the electrical derivation additionally requires a
non-zero rated voltage (its voltage-tolerance ratio divides by the rated
voltage without a guard). -/
theorem C9_amended_zero_guards
    (sp dp fr mp ha v1 v2 v3 i1 i2 i3 rv : ℚ) (hrv : rv ≠ 0) :
    (calculate_hydraulic_parameters sp dp fr mp 0).head_m = 0 ∧
    dev_pct ha 0 = 0 ∧
    ∃ c, calculate_electrical_parameters v1 v2 v3 i1 i2 i3 rv 0 = some c ∧
      c.load_estimate_percent = 0 := by
  refine ⟨by simp [calculate_hydraulic_parameters], by simp [dev_pct], ?_⟩
  rw [calculate_electrical_parameters, if_neg hrv]
  exact ⟨_, rfl, by simp⟩

theorem C9_witness :
    (400 : ℚ) ≠ 0 ∧
    ((calculate_hydraulic_parameters 1.2 8.5 100 45 0).head_m = 0 ∧
     dev_pct (1241/14) 0 = 0 ∧
     ∃ c, calculate_electrical_parameters 400 402 398 82 84 83 400 0 = some c ∧
       c.load_estimate_percent = 0) :=
  ⟨by norm_num,
   C9_amended_zero_guards 1.2 8.5 100 45 (1241/14) 400 402 398 82 84 83 400 (by norm_num)⟩

end PumpDiag
